import Mathlib

/-!
Verification of the zai-mcp-server tool-dispatch contract.

The development shallowly embeds `src/index.js`: the JSON runtime values the
dispatcher manipulates, the `JSON.stringify(·, null, 2)` serializer used to
shape tool results, the `zaiApiRequest` HTTP wrapper, and the
`CallToolRequestSchema` handler with its three tool branches
(`zai_chat`, `zai_search`, `zai_summarize`) and its catch-all error path.

The external HTTP collaborator (`fetch`) is modelled as an oracle mapping an
endpoint and payload to either a network failure or an HTTP response; the
dispatcher additionally returns the list of outbound requests it issued, so
that properties such as "no retry" and "a request is (not) issued" are
statable.  Machine floats are modelled as rationals; `undefined` is a
distinguished JSON value, so JavaScript truthiness, `||`, `??`, member
access (which throws on `undefined`/`null`) and optional chaining are all
explicit.
-/

namespace ZaiMcp

/-- Runtime JSON-like values of the dispatcher, including the JavaScript
`undefined` value (distinct from JSON `null`).  Objects are association
lists in insertion order with distinct keys, as produced by object literals
and `JSON.parse`. -/
inductive Json : Type where
  | undef : Json
  | null : Json
  | bool : Bool → Json
  | num : Rat → Json
  | str : String → Json
  | arr : List Json → Json
  | obj : List (String × Json) → Json

/-- Lookup of a key in an object field list; a missing key reads as the
JavaScript `undefined`. -/
def assocLookup : List (String × Json) → String → Json
  | [], _ => Json.undef
  | (k, v) :: rest, key => if k = key then v else assocLookup rest key

/-- JavaScript truthiness of a modelled value (NaN is not modelled; every
other falsy value is). -/
def truthy : Json → Bool
  | Json.undef => false
  | Json.null => false
  | Json.bool b => b
  | Json.num q => if q = 0 then false else true
  | Json.str s => if s = "" then false else true
  | Json.arr _ => true
  | Json.obj _ => true

/-- JavaScript `a || b`. -/
def jsOr (a b : Json) : Json := if truthy a then a else b

/-- JavaScript `a ?? b` (nullish coalescing). -/
def jsNullish : Json → Json → Json
  | Json.undef, b => b
  | Json.null, b => b
  | a, _ => a

/-- JavaScript member access `o.k`: throws a TypeError on `undefined` and
`null`, returns the property of objects, the `length` of strings and
arrays, and `undefined` on every other primitive. -/
def getField : Json → String → Except String Json
  | Json.undef, k => Except.error ("Cannot read properties of undefined (reading " ++ k ++ ")")
  | Json.null, k => Except.error ("Cannot read properties of null (reading " ++ k ++ ")")
  | Json.obj fields, k => Except.ok (assocLookup fields k)
  | Json.str s, k => Except.ok (if k = "length" then Json.num s.length else Json.undef)
  | Json.arr xs, k => Except.ok (if k = "length" then Json.num xs.length else Json.undef)
  | Json.bool _, _ => Except.ok Json.undef
  | Json.num _, _ => Except.ok Json.undef

/-- JavaScript index access `o[i]` for a natural index: throws on
`undefined`/`null`, indexes arrays (out of range reads as `undefined`),
and reads `undefined` on other values (single-character string access is
irrelevant to the dispatcher and modelled as `undefined`). -/
def getIndex : Json → Nat → Except String Json
  | Json.undef, _ => Except.error "Cannot read properties of undefined (reading 0)"
  | Json.null, _ => Except.error "Cannot read properties of null (reading 0)"
  | Json.arr xs, i => Except.ok (xs.getD i Json.undef)
  | _, _ => Except.ok Json.undef

/-- JavaScript optional chain `o?.k`: `undefined` when the receiver is
`undefined` or `null`, plain member access otherwise (which then cannot
throw). -/
def optField (j : Json) (k : String) : Json :=
  match j with
  | Json.undef => Json.undef
  | Json.null => Json.undef
  | j => match getField j k with
    | Except.ok v => v
    | Except.error _ => Json.undef

/-- Whether a value is an array, as `Array.isArray`. -/
def isArrayJson : Json → Bool
  | Json.arr _ => true
  | _ => false

/-- Elements of an array value (used for the spread
`messages.push(...args.conversationHistory)`). -/
def arrElems : Json → List Json
  | Json.arr xs => xs
  | _ => []

/-- Lowercase hexadecimal digit. -/
def hexDigit (n : Nat) : Char :=
  if n < 10 then Char.ofNat (48 + n) else Char.ofNat (87 + n)

/-- Four-digit hexadecimal rendering used by the `\u....` escape. -/
def hex4 (n : Nat) : String :=
  String.mk [hexDigit (n / 4096 % 16), hexDigit (n / 256 % 16),
             hexDigit (n / 16 % 16), hexDigit (n % 16)]

/-- JSON string escaping of one character, as `JSON.stringify` performs. -/
def escapeChar (c : Char) : String :=
  if c = Char.ofNat 34 then "\\\""
  else if c = Char.ofNat 92 then "\\\\"
  else if c = Char.ofNat 10 then "\\n"
  else if c = Char.ofNat 13 then "\\r"
  else if c = Char.ofNat 9 then "\\t"
  else if c = Char.ofNat 8 then "\\b"
  else if c = Char.ofNat 12 then "\\f"
  else if c.toNat < 32 then "\\u" ++ hex4 c.toNat
  else String.singleton c

/-- JSON rendering of a string, quotes included. -/
def escapeString (s : String) : String :=
  "\"" ++ String.join (s.toList.map escapeChar) ++ "\""

/-- Decimal rendering of a rational JSON number.  Integers render as
integers; non-integers with a terminating decimal expansion render with a
decimal point (all numbers the dispatcher serializes are of these forms);
other rationals fall back to a fraction rendering to keep the function
total. -/
def ratToJsonString (q : Rat) : String :=
  if q.den = 1 then toString q.num
  else
    match (List.range 40).find? (fun k => (q * (10:Rat) ^ (k + 1)).den == 1) with
    | some k =>
        let scaled : Int := (q * (10:Rat) ^ (k + 1)).num
        let sign := if scaled < 0 then "-" else ""
        let digits := toString scaled.natAbs
        let padded :=
          if digits.length < k + 2 then
            String.mk (List.replicate (k + 2 - digits.length) '0') ++ digits
          else digits
        sign ++ padded.dropRight (k + 1) ++ "." ++ padded.takeRight (k + 1)
    | none => toString q.num ++ "/" ++ toString q.den

/-- Indentation string of `n` spaces. -/
def spacesOf (n : Nat) : String := String.mk (List.replicate n ' ')

/-- Layout of a `JSON.stringify(·, null, 2)` object or array block at a
given nesting depth: the empty block collapses, otherwise every item goes
on its own line indented one step further, and the closing bracket is
indented at the block depth. -/
def renderBlock (openS closeS : String) (depth : Nat) (items : List String) : String :=
  match items with
  | [] => openS ++ closeS
  | _ =>
      openS ++ "\n"
        ++ String.intercalate ",\n" (items.map (fun s => spacesOf ((depth + 1) * 2) ++ s))
        ++ "\n" ++ spacesOf (depth * 2) ++ closeS

mutual
/-- Serialization of a value at a nesting depth, as
`JSON.stringify(v, null, 2)`: `undefined` serializes to nothing
(`none`). -/
def stringifyVal : Nat → Json → Option String
  | _, Json.undef => none
  | _, Json.null => some "null"
  | _, Json.bool b => some (cond b "true" "false")
  | _, Json.num q => some (ratToJsonString q)
  | _, Json.str s => some (escapeString s)
  | depth, Json.arr xs => some (renderBlock "[" "]" depth (stringifyArr (depth + 1) xs))
  | depth, Json.obj fs => some (renderBlock "\x7b" "\x7d" depth (stringifyObj (depth + 1) fs))

/-- Serialization of array items: an `undefined` item renders as `null`. -/
def stringifyArr : Nat → List Json → List String
  | _, [] => []
  | depth, x :: xs =>
      (match stringifyVal depth x with
       | some s => s
       | none => "null") :: stringifyArr depth xs

/-- Serialization of object fields: a field whose value is `undefined` is
omitted. -/
def stringifyObj : Nat → List (String × Json) → List String
  | _, [] => []
  | depth, (k, v) :: fs =>
      match stringifyVal depth v with
      | some s => (escapeString k ++ ": " ++ s) :: stringifyObj depth fs
      | none => stringifyObj depth fs
end

/-- Top-level `JSON.stringify(v, null, 2)`.  The dispatcher only ever
serializes object literals, for which the result is defined. -/
def jsonStringify2 (j : Json) : String := (stringifyVal 0 j).getD "undefined"

/-- Configuration `ZAI_CONFIG`, populated from the environment before the
core runs.  `apiKey` is `none` when `ZAI_API_KEY` is unset; the remaining
fields carry the documented fallback defaults when their variables are
unset. -/
structure Config : Type where
  apiKey : Option String
  baseUrl : String
  model : String
  maxTokens : Rat
  temperature : Rat

/-- Template-literal rendering of the api key, as in
`Bearer ${ZAI_CONFIG.apiKey}` (an unset key interpolates as the string
`undefined`). -/
def bearerKey : Option String → String
  | some s => s
  | none => "undefined"

/-- Observable shape of one outbound HTTP request built by
`zaiApiRequest`: the full URL, the method, the headers and the JSON
payload (the wire body is its serialization). -/
structure OutboundRequest : Type where
  url : String
  method : String
  headers : List (String × String)
  body : Json

/-- Behavior of the external HTTP collaborator for one call: either the
connection fails with an underlying message, or the remote answers with a
status, a body text, and the result of parsing the body as JSON. -/
inductive UpstreamBehavior : Type where
  | networkFailure : String → UpstreamBehavior
  | respond : Nat → String → Except String Json → UpstreamBehavior

/-- The upstream collaborator, as a deterministic oracle from endpoint and
payload to behavior. -/
def Upstream : Type := String → Json → UpstreamBehavior

/-- Classification test of `zaiApiRequest`: errors whose message already
carries the `z.ai API error` marker are re-raised unchanged, anything else
is wrapped as a connection failure. -/
def wrapNetworkError (m : String) : String :=
  if (m.splitOn "z.ai API error").length != 1 then m
  else "Failed to connect to z.ai API: " ++ m

/-- The `zaiApiRequest` helper: builds the one outbound POST (JSON body,
content type, bearer authorization), then classifies the outcome — a
non-2xx status raises `z.ai API error (<status>): <body text>`, a network
or body-parse failure raises `Failed to connect to z.ai API: <cause>`, and
a 2xx response yields its parsed JSON body.  The issued request is
returned alongside so that callers observe exactly how many requests were
made. -/
def zaiApiRequest (cfg : Config) (up : Upstream) (endpoint : String) (data : Json) :
    Except String Json × List OutboundRequest :=
  let req : OutboundRequest :=
    { url := cfg.baseUrl ++ endpoint
      method := "POST"
      headers := [("Content-Type", "application/json"),
                  ("Authorization", "Bearer " ++ bearerKey cfg.apiKey)]
      body := data }
  let res : Except String Json :=
    match up endpoint data with
    | UpstreamBehavior.networkFailure msg => Except.error (wrapNetworkError msg)
    | UpstreamBehavior.respond status bodyText bodyJson =>
        if 200 ≤ status ∧ status ≤ 299 then
          match bodyJson with
          | Except.ok j => Except.ok j
          | Except.error m => Except.error (wrapNetworkError m)
        else Except.error ("z.ai API error (" ++ toString status ++ "): " ++ bodyText)
  (res, [req])

/-- Content block of a ToolResult. -/
structure ContentBlock : Type where
  type : String
  text : String
deriving DecidableEq

/-- Result returned across the MCP boundary for a tool call.  The source
omits `isError` on success; MCP reads an absent flag as `false`, so the
model makes that default explicit. -/
structure ToolResult : Type where
  content : List ContentBlock
  isError : Bool
deriving DecidableEq

/-- Successful result shape: one text content block, not error-flagged. -/
def okText (t : String) : ToolResult :=
  { content := [{ type := "text", text := t }], isError := false }

/-- Error result shape produced by the dispatch-boundary catch. -/
def errorResult (name msg : String) : ToolResult :=
  { content := [{ type := "text", text := "Error executing " ++ name ++ ": " ++ msg }],
    isError := true }

/-- The `zai_chat` branch of the call-tool handler: assembles the message
list (optional system prompt, optional spread conversation history, the
user message), builds the chat-completions payload with `||` defaulting
for max tokens and `??` defaulting for temperature, performs the remote
call, and shapes `response.choices[0].message.content`, `response.usage`
and `response.model` into one serialized text block.  Member accesses that
throw are propagated as errors together with the requests issued so
far. -/
def chatBranch (cfg : Config) (up : Upstream) (args : Json) :
    Except String ToolResult × List OutboundRequest :=
  match getField args "system" with
  | Except.error m => (Except.error m, [])
  | Except.ok sysVal =>
  match getField args "conversationHistory" with
  | Except.error m => (Except.error m, [])
  | Except.ok histVal =>
  match getField args "message" with
  | Except.error m => (Except.error m, [])
  | Except.ok msgVal =>
  match getField args "maxTokens" with
  | Except.error m => (Except.error m, [])
  | Except.ok mtVal =>
  match getField args "temperature" with
  | Except.error m => (Except.error m, [])
  | Except.ok tmpVal =>
  let messages : List Json :=
    (if truthy sysVal then [Json.obj [("role", Json.str "system"), ("content", sysVal)]] else [])
    ++ (if truthy histVal && isArrayJson histVal then arrElems histVal else [])
    ++ [Json.obj [("role", Json.str "user"), ("content", msgVal)]]
  let payload : Json := Json.obj
    [("model", Json.str cfg.model),
     ("messages", Json.arr messages),
     ("max_tokens", jsOr mtVal (Json.num cfg.maxTokens)),
     ("temperature", jsNullish tmpVal (Json.num cfg.temperature))]
  let callRes := zaiApiRequest cfg up "/v1/chat/completions" payload
  let log := callRes.2
  match callRes.1 with
  | Except.error m => (Except.error m, log)
  | Except.ok resp =>
  match getField resp "choices" with
  | Except.error m => (Except.error m, log)
  | Except.ok choicesVal =>
  match getIndex choicesVal 0 with
  | Except.error m => (Except.error m, log)
  | Except.ok choice0 =>
  match getField choice0 "message" with
  | Except.error m => (Except.error m, log)
  | Except.ok choiceMsg =>
  match getField choiceMsg "content" with
  | Except.error m => (Except.error m, log)
  | Except.ok contentVal =>
  match getField resp "usage" with
  | Except.error m => (Except.error m, log)
  | Except.ok usageVal =>
  match getField resp "model" with
  | Except.error m => (Except.error m, log)
  | Except.ok modelVal =>
  (Except.ok (okText (jsonStringify2 (Json.obj
    [("response", contentVal), ("usage", usageVal), ("model", modelVal)]))), log)

/-- The `zai_search` branch: builds the search payload (query, `||`
defaulted result limit, conditional filters), performs the remote call,
and shapes the results array, the `?.length || 0` count and the echoed
query into one serialized text block. -/
def searchBranch (cfg : Config) (up : Upstream) (args : Json) :
    Except String ToolResult × List OutboundRequest :=
  match getField args "query" with
  | Except.error m => (Except.error m, [])
  | Except.ok qVal =>
  match getField args "maxResults" with
  | Except.error m => (Except.error m, [])
  | Except.ok mrVal =>
  match getField args "filters" with
  | Except.error m => (Except.error m, [])
  | Except.ok fVal =>
  let base : List (String × Json) := [("query", qVal), ("max_results", jsOr mrVal (Json.num 10))]
  let searchData : Json := Json.obj (if truthy fVal then base ++ [("filters", fVal)] else base)
  let callRes := zaiApiRequest cfg up "/v1/search" searchData
  let log := callRes.2
  match callRes.1 with
  | Except.error m => (Except.error m, log)
  | Except.ok resp =>
  match getField resp "results" with
  | Except.error m => (Except.error m, log)
  | Except.ok resultsVal =>
  (Except.ok (okText (jsonStringify2 (Json.obj
    [("results", resultsVal),
     ("count", jsOr (optField resultsVal "length") (Json.num 0)),
     ("query", qVal)]))), log)

/-- The `zai_summarize` branch: builds the summarize payload (`||`
defaulted length and style), performs the remote call, and shapes the
summary, `args.text.length` (a member access that throws when `text` is
absent — after the request) and the `?.length || 0` summary length into
one serialized text block. -/
def summarizeBranch (cfg : Config) (up : Upstream) (args : Json) :
    Except String ToolResult × List OutboundRequest :=
  match getField args "text" with
  | Except.error m => (Except.error m, [])
  | Except.ok tVal =>
  match getField args "length" with
  | Except.error m => (Except.error m, [])
  | Except.ok lVal =>
  match getField args "style" with
  | Except.error m => (Except.error m, [])
  | Except.ok sVal =>
  let summarizeData : Json := Json.obj
    [("text", tVal),
     ("length", jsOr lVal (Json.str "medium")),
     ("style", jsOr sVal (Json.str "paragraph"))]
  let callRes := zaiApiRequest cfg up "/v1/summarize" summarizeData
  let log := callRes.2
  match callRes.1 with
  | Except.error m => (Except.error m, log)
  | Except.ok resp =>
  match getField resp "summary" with
  | Except.error m => (Except.error m, log)
  | Except.ok sumVal =>
  match getField tVal "length" with
  | Except.error m => (Except.error m, log)
  | Except.ok origLen =>
  (Except.ok (okText (jsonStringify2 (Json.obj
    [("summary", sumVal),
     ("original_length", origLen),
     ("summary_length", jsOr (optField sumVal "length") (Json.num 0))]))), log)

/-- Body of the `CallToolRequestSchema` handler (the switch): dispatches
on the tool name and throws `Unknown tool: <name>` for anything outside
the catalog. -/
def dispatchBody (cfg : Config) (up : Upstream) (name : String) (args : Json) :
    Except String ToolResult × List OutboundRequest :=
  if name = "zai_chat" then chatBranch cfg up args
  else if name = "zai_search" then searchBranch cfg up args
  else if name = "zai_summarize" then summarizeBranch cfg up args
  else (Except.error ("Unknown tool: " ++ name), [])

/-- The `CallToolRequestSchema` handler: runs the switch and converts
every raised error at the dispatch boundary into the error-flagged
single-text-block result.  The second component is the list of outbound
HTTP requests issued while handling the invocation. -/
def handleCallTool (cfg : Config) (up : Upstream) (name : String) (args : Json) :
    ToolResult × List OutboundRequest :=
  match dispatchBody cfg up name args with
  | (Except.ok r, log) => (r, log)
  | (Except.error m, log) => (errorResult name m, log)

/-- Catalog entry: tool name and the fields its input schema marks
required. -/
structure ToolDescriptor : Type where
  name : String
  requiredFields : List String

/-- The static tool catalog returned by the `ListToolsRequestSchema`
handler, restricted to the names and required-field declarations (the
descriptions and optional-field schemas are prose irrelevant to the
claims).  The chat schema additionally declares temperature bounds 0 to 1;
see `chatTemperatureSchemaBounds`. -/
def toolCatalog : List ToolDescriptor :=
  [ { name := "zai_chat", requiredFields := ["message"] },
    { name := "zai_search", requiredFields := ["query"] },
    { name := "zai_summarize", requiredFields := ["text"] } ]

/-- The `minimum`/`maximum` pair declared on the `temperature` property of
the `zai_chat` input schema.  It is a declaration only: no code reads
it. -/
def chatTemperatureSchemaBounds : Rat × Rat := (0, 1)

/-- The `validateConfig` startup check: a missing or empty
`ZAI_API_KEY` (both falsy) is a fatal error. -/
def validateConfig (cfg : Config) : Except String Unit :=
  if cfg.apiKey = none ∨ cfg.apiKey = some "" then
    Except.error "ZAI_API_KEY environment variable is required"
  else Except.ok ()

/-- Observable handle of a constructed server (name and version; the
request handlers are `handleCallTool` and `toolCatalog` above). -/
structure MCPServer : Type where
  name : String
  version : String

/-- The `createMCPServer` factory: validates configuration first and only
then constructs the server and registers the handlers. -/
def createMCPServer (cfg : Config) : Except String MCPServer :=
  match validateConfig cfg with
  | Except.error m => Except.error m
  | Except.ok _ => Except.ok { name := "zai-mcp-server", version := "1.0.0" }

/-- Outcome of the `main` entry point: either the server is running with
the stdio transport bound, or the process exited with a status code and a
diagnostic-stream message, before any transport was bound. -/
inductive MainOutcome : Type where
  | running : String → MainOutcome
  | exited : Nat → String → MainOutcome

/-- The `main` entry point: create the server and bind the transport; any
startup error is caught, reported on the diagnostic stream as
`Failed to start server: <message>`, and the process exits with status
1. -/
def main (cfg : Config) : MainOutcome :=
  match createMCPServer cfg with
  | Except.ok s => MainOutcome.running s.name
  | Except.error m => MainOutcome.exited 1 ("Failed to start server: " ++ m)

/-- Sequential double invocation of the same tool call against the same
upstream oracle, as in the idempotence scenario: the pair of the two
ToolResults.  The dispatcher reads only the immutable configuration and
the upstream, so both runs are the same function application. -/
def runTwice (cfg : Config) (up : Upstream) (name : String) (args : Json) :
    ToolResult × ToolResult :=
  ((handleCallTool cfg up name args).1, (handleCallTool cfg up name args).1)

/-- Field of an object payload, read at the meta level (for stating
properties of outbound request bodies). -/
def jsonFieldOf : Json → String → Json
  | Json.obj fs, k => assocLookup fs k
  | _, _ => Json.undef

/-- Fixture configuration mirroring the documented defaults with an api
key present. -/
def zcfg : Config :=
  { apiKey := some "test-key"
    baseUrl := "https://api.z.ai"
    model := "claude-3-sonnet-20240229"
    maxTokens := 4000
    temperature := 7 / 10 }

/-- Fixture configuration with the api key unset. -/
def zcfgNoKey : Config :=
  { apiKey := none
    baseUrl := "https://api.z.ai"
    model := "claude-3-sonnet-20240229"
    maxTokens := 4000
    temperature := 7 / 10 }

/-- Mocked upstream answering 200 with an empty JSON object. -/
def mockOk : Upstream := fun _ _ => UpstreamBehavior.respond 200 "" (Except.ok (Json.obj []))

/-- Mocked upstream answering HTTP 500 with body `server error`. -/
def mock500 : Upstream := fun _ _ => UpstreamBehavior.respond 500 "server error" (Except.ok Json.null)

/-- Mocked upstream answering 200 with the chat-completion body
`\x7bchoices:[\x7bmessage:\x7bcontent:"hi there"\x7d\x7d]\x7d`. -/
def mockChatHiThere : Upstream := fun _ _ =>
  UpstreamBehavior.respond 200 "" (Except.ok (Json.obj
    [("choices", Json.arr [Json.obj [("message", Json.obj [("content", Json.str "hi there")])]])]))

/-- Mocked upstream answering 200 with the search body
`\x7bresults:[]\x7d`. -/
def mockEmptyResults : Upstream := fun _ _ =>
  UpstreamBehavior.respond 200 "" (Except.ok (Json.obj [("results", Json.arr [])]))

end ZaiMcp

namespace ZaiMcp

/-- Dispatch boundary and switch body agree on the issued-request log. -/
theorem handleCallTool_snd (cfg : Config) (up : Upstream) (nm : String) (args : Json) :
    (handleCallTool cfg up nm args).2 = (dispatchBody cfg up nm args).2 := by
  unfold handleCallTool
  rcases h : dispatchBody cfg up nm args with ⟨res, log⟩
  cases res <;> simp

/-- A chat invocation whose argument bag is an object always issues
exactly one outbound request, whatever the upstream does. -/
theorem chatBranch_log_length (cfg : Config) (up : Upstream) (fields : List (String × Json)) :
    (chatBranch cfg up (Json.obj fields)).2.length = 1 := by
  simp only [chatBranch, getField, zaiApiRequest]
  repeat' split
  all_goals simp

/-- A search invocation whose argument bag is an object always issues
exactly one outbound request. -/
theorem searchBranch_log_length (cfg : Config) (up : Upstream) (fields : List (String × Json)) :
    (searchBranch cfg up (Json.obj fields)).2.length = 1 := by
  simp only [searchBranch, getField, zaiApiRequest]
  repeat' split
  all_goals simp

/-- A summarize invocation whose argument bag is an object always issues
exactly one outbound request. -/
theorem summarizeBranch_log_length (cfg : Config) (up : Upstream) (fields : List (String × Json)) :
    (summarizeBranch cfg up (Json.obj fields)).2.length = 1 := by
  simp only [summarizeBranch, getField, zaiApiRequest]
  repeat' split
  all_goals simp

/-- The temperature field of the one chat request body is the `??`
combination of the supplied argument and the configured default. -/
theorem chatBranch_temperature_field (cfg : Config) (up : Upstream) (fields : List (String × Json)) :
    (chatBranch cfg up (Json.obj fields)).2.map (fun r => jsonFieldOf r.body "temperature")
      = [jsNullish (assocLookup fields "temperature") (Json.num cfg.temperature)] := by
  simp only [chatBranch, getField, zaiApiRequest]
  repeat' split
  all_goals simp [jsonFieldOf, assocLookup]

/-- The temperature and max_tokens fields of the one chat request body:
temperature uses `??` defaulting, max_tokens uses `||` defaulting. -/
theorem chatBranch_numeric_fields (cfg : Config) (up : Upstream) (fields : List (String × Json)) :
    (chatBranch cfg up (Json.obj fields)).2.map
        (fun r => (jsonFieldOf r.body "temperature", jsonFieldOf r.body "max_tokens"))
      = [(jsNullish (assocLookup fields "temperature") (Json.num cfg.temperature),
          jsOr (assocLookup fields "maxTokens") (Json.num cfg.maxTokens))] := by
  simp only [chatBranch, getField, zaiApiRequest]
  repeat' split
  all_goals simp [jsonFieldOf, assocLookup]

/-- C1: a CallTool invocation whose tool name is none of `zai_chat`,
`zai_search`, `zai_summarize` returns the error-flagged ToolResult whose
single text block carries `Unknown tool: <name>` (wrapped by the
dispatch-boundary catch as `Error executing <name>: Unknown tool: <name>`),
issues no outbound request, and — `handleCallTool` being a total function —
never throws past the dispatch boundary. -/
theorem unknownTool_isError (cfg : Config) (up : Upstream) (nm : String) (args : Json)
    (h1 : nm ≠ "zai_chat") (h2 : nm ≠ "zai_search") (h3 : nm ≠ "zai_summarize") :
    handleCallTool cfg up nm args = (errorResult nm ("Unknown tool: " ++ nm), [])
    ∧ (errorResult nm ("Unknown tool: " ++ nm)).isError = true
    ∧ (errorResult nm ("Unknown tool: " ++ nm)).content =
        [{ type := "text", text := ("Error executing " ++ nm ++ ": ") ++ ("Unknown tool: " ++ nm) }] := by
  refine ⟨?_, rfl, rfl⟩
  simp [handleCallTool, dispatchBody, h1, h2, h3]

/-- Witness for C1: invoking the unregistered name `zai_unknown`. -/
theorem unknownTool_isError_witness :
    handleCallTool zcfg mockOk "zai_unknown" (Json.obj [])
        = (errorResult "zai_unknown" ("Unknown tool: " ++ "zai_unknown"), [])
    ∧ (errorResult "zai_unknown" ("Unknown tool: " ++ "zai_unknown")).isError = true
    ∧ (errorResult "zai_unknown" ("Unknown tool: " ++ "zai_unknown")).content =
        [{ type := "text",
           text := ("Error executing " ++ "zai_unknown" ++ ": ") ++ ("Unknown tool: " ++ "zai_unknown") }] :=
  unknownTool_isError zcfg mockOk "zai_unknown" (Json.obj []) (by decide) (by decide) (by decide)

/-- C3 counterexample: invoking `zai_chat` with an empty argument object —
the required `message` field reads as `undefined` — still issues exactly
one outbound HTTP request: the dispatcher performs no presence check
before building the payload, contradicting the claim that such an
invocation does not result in an outbound request. -/
theorem missingRequired_requestStillIssued_cex :
    assocLookup [] "message" = Json.undef
    ∧ (handleCallTool zcfg mockOk "zai_chat" (Json.obj [])).2.length = 1 :=
  ⟨rfl, rfl⟩

/-- C3 amended: the dispatcher performs no runtime presence check at all —
the required field of each tool (`message`, `query`, `text`) is declared
only in the catalog input schema, and an invocation whose argument object
lacks that field still results in exactly one outbound HTTP request being
issued (for `zai_summarize`, the missing `text` only causes a TypeError
after the request, while shaping the response). -/
theorem noPresenceCheck_requestIssued (cfg : Config) (up : Upstream)
    (fields : List (String × Json)) (nm requiredField : String)
    (hmem : (nm, requiredField) ∈
      [("zai_chat", "message"), ("zai_search", "query"), ("zai_summarize", "text")])
    (hmissing : assocLookup fields requiredField = Json.undef) :
    (toolCatalog.map (fun d => (d.name, d.requiredFields))).contains (nm, [requiredField]) = true
    ∧ (handleCallTool cfg up nm (Json.obj fields)).2.length = 1 := by
  rw [handleCallTool_snd]
  simp only [List.mem_cons, List.not_mem_nil, or_false] at hmem
  rcases hmem with h | h | h <;> cases h <;> refine ⟨by decide, ?_⟩ <;>
    simp [dispatchBody, chatBranch_log_length, searchBranch_log_length, summarizeBranch_log_length]

/-- Witness for C3 amended: `zai_chat` with an empty argument object. -/
theorem noPresenceCheck_requestIssued_witness :
    (toolCatalog.map (fun d => (d.name, d.requiredFields))).contains ("zai_chat", ["message"]) = true
    ∧ (handleCallTool zcfg mockOk "zai_chat" (Json.obj [])).2.length = 1 :=
  noPresenceCheck_requestIssued zcfg mockOk [] "zai_chat" "message" (by simp) rfl

/-- C6 counterexample: supplying `temperature: 5` to `zai_chat` places 5
in the outbound payload unchanged — outside both the 0–1 range the input
schema declares and the 0–2 range of the spec's other variant — so no
clamping happens before the HTTP request is built. -/
theorem temperature_not_clamped_cex :
    ((handleCallTool zcfg mockOk "zai_chat"
        (Json.obj [("message", Json.str "hi"), ("temperature", Json.num 5)])).2.map
      (fun r => jsonFieldOf r.body "temperature")) = [Json.num 5]
    ∧ ¬ ((5 : Rat) ≤ 1) ∧ ¬ ((5 : Rat) ≤ 2)
    ∧ chatTemperatureSchemaBounds = (0, 1) :=
  ⟨rfl, by norm_num, by norm_num, rfl⟩

/-- C6 amended: the 0–1 temperature bounds exist only as an input-schema
declaration; the dispatcher never clamps — any supplied numeric
temperature is placed in the outbound chat payload unchanged, and the
configured default applies only when the argument is null or undefined. -/
theorem temperature_passthrough (cfg : Config) (up : Upstream)
    (fields : List (String × Json)) (q : Rat)
    (h : assocLookup fields "temperature" = Json.num q) :
    (handleCallTool cfg up "zai_chat" (Json.obj fields)).2.map
        (fun r => jsonFieldOf r.body "temperature") = [Json.num q] := by
  rw [handleCallTool_snd]
  have hb := chatBranch_temperature_field cfg up fields
  simp only [dispatchBody, if_pos rfl, if_true] at hb ⊢
  rw [hb, h]
  rfl

/-- Witness for C6 amended: temperature 5 flows through to the payload. -/
theorem temperature_passthrough_witness :
    (handleCallTool zcfg mockOk "zai_chat"
        (Json.obj [("message", Json.str "hi"), ("temperature", Json.num 5)])).2.map
      (fun r => jsonFieldOf r.body "temperature") = [Json.num 5] :=
  temperature_passthrough zcfg mockOk [("message", Json.str "hi"), ("temperature", Json.num 5)] 5 rfl

/-- C7: the dispatcher holds no mutable state, so issuing the same
`zai_summarize` invocation twice against the same deterministic upstream
oracle yields byte-identical ToolResults — in the embedding the handler is
a pure function of the immutable configuration, the upstream and the
invocation, so the two sequential runs are the same application. -/
theorem summarize_idempotent (cfg : Config) (up : Upstream) (args : Json) :
    (runTwice cfg up "zai_summarize" args).1 = (runTwice cfg up "zai_summarize" args).2 := rfl

/-- C9: a falsy `ZAI_API_KEY` (unset or empty) makes `createMCPServer`
throw out of `validateConfig`, so `main` catches the error, prints the
human-readable diagnostic and exits with status 1 — the server never
reaches the running state, no transport is bound, and the failure is a
process exit, not a ToolResult. -/
theorem missingApiKey_fatal (cfg : Config)
    (h : cfg.apiKey = none ∨ cfg.apiKey = some "") :
    createMCPServer cfg = Except.error "ZAI_API_KEY environment variable is required"
    ∧ main cfg = MainOutcome.exited 1
        ("Failed to start server: " ++ "ZAI_API_KEY environment variable is required")
    ∧ ∀ s, main cfg ≠ MainOutcome.running s := by
  have hv : validateConfig cfg = Except.error "ZAI_API_KEY environment variable is required" := by
    simp [validateConfig, h]
  refine ⟨?_, ?_, ?_⟩ <;> simp [createMCPServer, main, hv]

/-- Witness for C9: the fixture configuration with the key unset. -/
theorem missingApiKey_fatal_witness :
    createMCPServer zcfgNoKey = Except.error "ZAI_API_KEY environment variable is required"
    ∧ main zcfgNoKey = MainOutcome.exited 1
        ("Failed to start server: " ++ "ZAI_API_KEY environment variable is required")
    ∧ ∀ s, main zcfgNoKey ≠ MainOutcome.running s :=
  missingApiKey_fatal zcfgNoKey (Or.inl rfl)

/-- C10: in the chat payload, an explicit `temperature: 0` survives (the
`??` default applies only to null/undefined) while an explicit
`maxTokens: 0` is replaced by the configured default (the `||` default
applies to every falsy value, 0 included). -/
theorem tempZero_honored_maxTokensZero_defaulted (cfg : Config) (up : Upstream)
    (fields : List (String × Json))
    (ht : assocLookup fields "temperature" = Json.num 0)
    (hm : assocLookup fields "maxTokens" = Json.num 0) :
    (handleCallTool cfg up "zai_chat" (Json.obj fields)).2.map
        (fun r => (jsonFieldOf r.body "temperature", jsonFieldOf r.body "max_tokens"))
      = [(Json.num 0, Json.num cfg.maxTokens)] := by
  rw [handleCallTool_snd]
  have hb := chatBranch_numeric_fields cfg up fields
  simp only [dispatchBody, if_pos rfl, if_true] at hb ⊢
  rw [hb, ht, hm]
  simp [jsNullish, jsOr, truthy]

/-- Witness for C10: explicit zeros for both optional numeric fields. -/
theorem tempZero_honored_maxTokensZero_defaulted_witness :
    (handleCallTool zcfg mockOk "zai_chat"
        (Json.obj [("message", Json.str "m"), ("temperature", Json.num 0), ("maxTokens", Json.num 0)])).2.map
        (fun r => (jsonFieldOf r.body "temperature", jsonFieldOf r.body "max_tokens"))
      = [(Json.num 0, Json.num zcfg.maxTokens)] :=
  tempZero_honored_maxTokensZero_defaulted zcfg mockOk
    [("message", Json.str "m"), ("temperature", Json.num 0), ("maxTokens", Json.num 0)] rfl rfl

end ZaiMcp

namespace ZaiMcp

/-- C2: when the upstream answers any request with a non-2xx status, every
tool invocation (object argument bag) yields the error-flagged ToolResult
whose single text block is `Error executing <tool>: z.ai API error
(<status>): <body text>` — carrying the tool name, the HTTP status and the
response body text — and exactly one request is issued: the classified
failure is caught at the dispatch boundary and never retried. -/
theorem httpFailure_isError (cfg : Config) (up : Upstream) (fields : List (String × Json))
    (status : Nat) (bodyText : String) (bj : Except String Json) (nm : String)
    (hup : ∀ e d, up e d = UpstreamBehavior.respond status bodyText bj)
    (hst : status < 200 ∨ 299 < status)
    (hnm : nm = "zai_chat" ∨ nm = "zai_search" ∨ nm = "zai_summarize") :
    (handleCallTool cfg up nm (Json.obj fields)).1 =
      errorResult nm ("z.ai API error (" ++ toString status ++ "): " ++ bodyText)
    ∧ (handleCallTool cfg up nm (Json.obj fields)).2.length = 1 := by
  have hcond : ¬ (200 ≤ status ∧ status ≤ 299) := by omega
  rcases hnm with h | h | h <;> subst h <;>
    exact ⟨by simp [handleCallTool, dispatchBody, chatBranch, searchBranch, summarizeBranch,
                    zaiApiRequest, getField, hup, hcond],
           by rw [handleCallTool_snd]
              simp [dispatchBody, chatBranch_log_length, searchBranch_log_length,
                    summarizeBranch_log_length]⟩

/-- Witness for C2: `zai_chat` against an upstream answering HTTP 500 with
body `server error`. -/
theorem httpFailure_isError_witness :
    (handleCallTool zcfg mock500 "zai_chat" (Json.obj [("message", Json.str "hello")])).1 =
      errorResult "zai_chat" ("z.ai API error (" ++ toString 500 ++ "): " ++ "server error")
    ∧ (handleCallTool zcfg mock500 "zai_chat" (Json.obj [("message", Json.str "hello")])).2.length = 1 :=
  httpFailure_isError zcfg mock500 [("message", Json.str "hello")] 500 "server error"
    (Except.ok Json.null) "zai_chat" (fun _ _ => rfl) (by omega) (Or.inl rfl)

/-- C5: `zai_chat` with `message: "hello"` against a 2xx upstream whose
body is `\x7bchoices:[\x7bmessage:\x7bcontent:"hi there"\x7d\x7d]\x7d`
yields a non-error ToolResult whose single text block contains
`hi there` (the serialized `\x7bresponse: "hi there"\x7d`; the absent
usage and model fields are dropped by the serializer). -/
theorem chat_success_hiThere (cfg : Config) :
    (handleCallTool cfg mockChatHiThere "zai_chat" (Json.obj [("message", Json.str "hello")])).1
      = okText ("\x7b\n  \"response\": \"hi there\"\n\x7d")
    ∧ (okText ("\x7b\n  \"response\": \"hi there\"\n\x7d")).isError = false
    ∧ ("\x7b\n  \"response\": \"hi there\"\n\x7d" : String)
        = "\x7b\n  \"response\": \"" ++ "hi there" ++ "\"\n\x7d" :=
  ⟨rfl, rfl, rfl⟩

/-- C8: `zai_search` with `query: "x"` against a 2xx upstream whose body
is `\x7bresults:[]\x7d` yields a non-error ToolResult whose single text
block carries a `"count": 0` field — the handler never throws on the
empty results array. -/
theorem search_emptyResults_ok (cfg : Config) :
    (handleCallTool cfg mockEmptyResults "zai_search" (Json.obj [("query", Json.str "x")])).1
      = okText ("\x7b\n  \"results\": [],\n  \"count\": 0,\n  \"query\": \"x\"\n\x7d")
    ∧ (okText ("\x7b\n  \"results\": [],\n  \"count\": 0,\n  \"query\": \"x\"\n\x7d")).isError = false
    ∧ ("\x7b\n  \"results\": [],\n  \"count\": 0,\n  \"query\": \"x\"\n\x7d" : String)
        = "\x7b\n  \"results\": [],\n  " ++ "\"count\": 0" ++ ",\n  \"query\": \"x\"\n\x7d" :=
  ⟨rfl, rfl, rfl⟩

/-- Every successful chat result is a single-text-block `okText`. -/
theorem chatBranch_ok_shape (cfg : Config) (up : Upstream) (args : Json)
    (r : ToolResult) (log : List OutboundRequest)
    (h : chatBranch cfg up args = (Except.ok r, log)) :
    ∃ t, r = okText t := by
  simp only [chatBranch, zaiApiRequest] at h
  repeat' split at h
  all_goals injection h with h1 h2
  all_goals try exact Except.noConfusion h1
  all_goals injection h1 with h3
  all_goals exact ⟨_, h3.symm⟩

/-- Every successful search result is a single-text-block `okText`. -/
theorem searchBranch_ok_shape (cfg : Config) (up : Upstream) (args : Json)
    (r : ToolResult) (log : List OutboundRequest)
    (h : searchBranch cfg up args = (Except.ok r, log)) :
    ∃ t, r = okText t := by
  simp only [searchBranch, zaiApiRequest] at h
  repeat' split at h
  all_goals injection h with h1 h2
  all_goals try exact Except.noConfusion h1
  all_goals injection h1 with h3
  all_goals exact ⟨_, h3.symm⟩

/-- Every successful summarize result is a single-text-block `okText`. -/
theorem summarizeBranch_ok_shape (cfg : Config) (up : Upstream) (args : Json)
    (r : ToolResult) (log : List OutboundRequest)
    (h : summarizeBranch cfg up args = (Except.ok r, log)) :
    ∃ t, r = okText t := by
  simp only [summarizeBranch, zaiApiRequest] at h
  repeat' split at h
  all_goals injection h with h1 h2
  all_goals try exact Except.noConfusion h1
  all_goals injection h1 with h3
  all_goals exact ⟨_, h3.symm⟩

/-- A chat invocation issues at most one request, whatever the arguments
(a TypeError while reading the argument bag prevents the request). -/
theorem chatBranch_log_le (cfg : Config) (up : Upstream) (args : Json) :
    (chatBranch cfg up args).2.length ≤ 1 := by
  simp only [chatBranch, zaiApiRequest]
  repeat' split
  all_goals simp

/-- A search invocation issues at most one request. -/
theorem searchBranch_log_le (cfg : Config) (up : Upstream) (args : Json) :
    (searchBranch cfg up args).2.length ≤ 1 := by
  simp only [searchBranch, zaiApiRequest]
  repeat' split
  all_goals simp

/-- A summarize invocation issues at most one request. -/
theorem summarizeBranch_log_le (cfg : Config) (up : Upstream) (args : Json) :
    (summarizeBranch cfg up args).2.length ≤ 1 := by
  simp only [summarizeBranch, zaiApiRequest]
  repeat' split
  all_goals simp

/-- C4: whatever the arguments and whatever the upstream does (success,
HTTP failure, network failure, malformed body), every invocation of the
three tools returns exactly one ToolResult whose content is exactly one
content block of type `text` — never zero blocks, never more than one —
and issues at most one request (no retry, no multi-attempt result). -/
theorem singleTextBlock (cfg : Config) (up : Upstream) (nm : String) (args : Json)
    (hnm : nm = "zai_chat" ∨ nm = "zai_search" ∨ nm = "zai_summarize") :
    (∃ t, ((handleCallTool cfg up nm args).1).content = [{ type := "text", text := t }])
    ∧ (handleCallTool cfg up nm args).2.length ≤ 1 := by
  rcases hnm with h | h | h <;> subst h
  · refine ⟨?_, ?_⟩
    · rcases hb : dispatchBody cfg up "zai_chat" args with ⟨res, log⟩
      have hd : dispatchBody cfg up "zai_chat" args = chatBranch cfg up args := by
        simp [dispatchBody]
      cases res with
      | ok r =>
          obtain ⟨t, ht⟩ := chatBranch_ok_shape cfg up args r log (hd.symm.trans hb)
          exact ⟨t, by simp [handleCallTool, hb, ht, okText]⟩
      | error m =>
          exact ⟨"Error executing " ++ "zai_chat" ++ ": " ++ m,
                 by simp [handleCallTool, hb, errorResult]⟩
    · rw [handleCallTool_snd]
      simp [dispatchBody, chatBranch_log_le]
  · refine ⟨?_, ?_⟩
    · rcases hb : dispatchBody cfg up "zai_search" args with ⟨res, log⟩
      have hd : dispatchBody cfg up "zai_search" args = searchBranch cfg up args := by
        simp [dispatchBody]
      cases res with
      | ok r =>
          obtain ⟨t, ht⟩ := searchBranch_ok_shape cfg up args r log (hd.symm.trans hb)
          exact ⟨t, by simp [handleCallTool, hb, ht, okText]⟩
      | error m =>
          exact ⟨"Error executing " ++ "zai_search" ++ ": " ++ m,
                 by simp [handleCallTool, hb, errorResult]⟩
    · rw [handleCallTool_snd]
      simp [dispatchBody, searchBranch_log_le]
  · refine ⟨?_, ?_⟩
    · rcases hb : dispatchBody cfg up "zai_summarize" args with ⟨res, log⟩
      have hd : dispatchBody cfg up "zai_summarize" args = summarizeBranch cfg up args := by
        simp [dispatchBody]
      cases res with
      | ok r =>
          obtain ⟨t, ht⟩ := summarizeBranch_ok_shape cfg up args r log (hd.symm.trans hb)
          exact ⟨t, by simp [handleCallTool, hb, ht, okText]⟩
      | error m =>
          exact ⟨"Error executing " ++ "zai_summarize" ++ ": " ++ m,
                 by simp [handleCallTool, hb, errorResult]⟩
    · rw [handleCallTool_snd]
      simp [dispatchBody, summarizeBranch_log_le]

/-- Witness for C4: `zai_chat` with an empty argument bag against the
trivial upstream. -/
theorem singleTextBlock_witness :
    (∃ t, ((handleCallTool zcfg mockOk "zai_chat" (Json.obj [])).1).content
        = [{ type := "text", text := t }])
    ∧ (handleCallTool zcfg mockOk "zai_chat" (Json.obj [])).2.length ≤ 1 :=
  singleTextBlock zcfg mockOk "zai_chat" (Json.obj []) (Or.inl rfl)

end ZaiMcp
